import Mathlib

/-
Verification of the VibeVoice server (server.py) against its specification.

The embedding below translates the audio pipeline of server.py into Lean:

* Python strings are modelled as `List Char`; `str.strip`, `str.split`,
  `str.startswith` and `in` become structurally recursive list functions.
* Audio samples (numpy float arrays) are modelled as `List ℚ`; the float32 /
  bfloat16 precision conversions (lines 489-495) are value-preserving in this
  model.  `astype(np.int16)` is truncation toward zero followed by wrap-around
  into the 16-bit range.
* Fallible numpy operations are modelled with `Option`: `np.max` of an empty
  array raises `ValueError`, so `convert_to_16_bit_wav` returns `none` on `[]`.
* The producer/consumer handoff (AudioStreamer + generation thread,
  lines 454-506) is modelled as explicit step machines over schedules, so that
  results can be quantified over every interleaving of producer and consumer.
-/

set_option linter.unusedVariables false

/-! ## Python string operations on `List Char` -/

/-- Python `str.strip()`: remove leading and trailing whitespace. -/
def pyStrip (s : List Char) : List Char :=
  ((s.dropWhile Char.isWhitespace).reverse.dropWhile Char.isWhitespace).reverse

/-- Python `str.split(c)` for a single separator character: always returns at
least one (possibly empty) piece. -/
def pySplitOn (sep : Char) : List Char → List (List Char)
  | [] => [[]]
  | c :: rest =>
    if c = sep then [] :: pySplitOn sep rest
    else
      match pySplitOn sep rest with
      | [] => [[c]]
      | p :: ps => (c :: p) :: ps

/-- The literal `"Speaker "` used by the script formatter (line 430). -/
def speakerTag : List Char := "Speaker ".toList

/-- Line 430: `line.startswith('Speaker ') and ':' in line`. -/
def hasSpeakerFormat (l : List Char) : Bool :=
  speakerTag.isPrefixOf l && l.contains ':'

/-- Decimal digits of a natural number, as Python `str(k)` renders it. -/
def natDigits (k : Nat) : List Char := Nat.toDigits 10 k

/-- Line 435: `f"Speaker {speaker_id}: {line}"`. -/
def mkSpeakerLine (k : Nat) (l : List Char) : List Char :=
  speakerTag ++ natDigits k ++ [':', ' '] ++ l

/-- One iteration of the script-formatting loop (lines 424-435): strip the
line, drop it if blank, pass it through if it already carries a speaker tag,
otherwise auto-assign `Speaker ((len(formatted) % num_speakers) + 1)`. -/
def formatStep (num_speakers : Nat) (acc : List (List Char)) (line : List Char) :
    List (List Char) :=
  let l := pyStrip line
  if l = [] then acc
  else if hasSpeakerFormat l then acc ++ [l]
  else acc ++ [mkSpeakerLine (acc.length % num_speakers + 1) l]

/-- Lines 421-437: `script.strip().split('\n')` folded through the
formatting loop starting from the empty list. -/
def formatScriptLines (script : List Char) (num_speakers : Nat) :
    List (List Char) :=
  (pySplitOn '\n' (pyStrip script)).foldl (formatStep num_speakers) []

/-- Claim-side description: the stripped, non-blank lines of the script, in
order. -/
def strippedNonBlank (script : List Char) : List (List Char) :=
  ((pySplitOn '\n' (pyStrip script)).map pyStrip).filter (fun l => !l.isEmpty)

/-- Claim-side description: how the line at output position `i` is labelled. -/
def labelAt (num_speakers i : Nat) (l : List Char) : List Char :=
  if hasSpeakerFormat l then l else mkSpeakerLine (i % num_speakers + 1) l

/-- Claim-side description: label a list of lines by their positions,
starting at position `i`. -/
def labelFrom (num_speakers : Nat) (i : Nat) : List (List Char) → List (List Char)
  | [] => []
  | l :: rest => labelAt num_speakers i l :: labelFrom num_speakers (i + 1) rest

/-! ## 16-bit conversion (lines 266-279) -/

/-- `astype(np.int16)` rounds toward zero; on ℚ this is `⌊x⌋` for
nonnegative `x` and `-⌊-x⌋` (that is, `⌈x⌉`) for negative `x`. -/
def truncQ (x : ℚ) : Int := if 0 ≤ x then ⌊x⌋ else -⌊-x⌋

/-- Wrap-around of `astype(np.int16)` into `[-32768, 32767]`. -/
def toInt16 (n : Int) : Int := (n + 32768) % 65536 - 32768

/-- `np.max(np.abs(data))` for nonempty `data` (the fold starts at 0, which
only matters for the empty list, where numpy raises instead). -/
def peakAbs (data : List ℚ) : ℚ := data.foldl (fun m x => max m |x|) 0

/-- Lines 266-279.  `np.max` of an empty array raises `ValueError`, hence
`none` on `[]`.  Otherwise: divide by the peak when it exceeds 1.0, then
multiply by 32767 and truncate to 16-bit integers. -/
def convert_to_16_bit_wav (data : List ℚ) : Option (List Int) :=
  if data.isEmpty then none
  else
    let d := if 1 < peakAbs data then data.map (fun x => x / peakAbs data) else data
    some (d.map (fun x => toInt16 (truncQ (x * 32767))))

/-! ## Chunk processing and assembly (lines 487-517) -/

/-- An audio chunk as the streamer delivers it: either already one-dimensional
(`flat`, shape `(n,)`) or wrapped in a singleton batch axis (`batched`, shape
`(1, n)`), which `squeeze()` removes (lines 498-499).  The tensor-to-float32
conversion of lines 489-495 is value-preserving in this model. -/
inductive Chunk where
  | flat (xs : List ℚ)
  | batched (xs : List ℚ)
deriving DecidableEq

/-- Lines 497-499: `if len(audio_np.shape) > 1: audio_np = audio_np.squeeze()`. -/
def squeezeChunk : Chunk → List ℚ
  | .flat xs => xs
  | .batched xs => xs

/-- Lines 487-503, body of the collection loop: normalize, flatten, then
`convert_to_16_bit_wav` per chunk.  `none` models the `ValueError` numpy
raises inside the loop for an empty chunk. -/
def processChunk (c : Chunk) : Option (List Int) :=
  convert_to_16_bit_wav (squeezeChunk c)

/-- `astype(np.float32)` on a 16-bit integer array: each integer becomes the
corresponding float value (exact, since the magnitudes stay below 2^15). -/
def intsToFloats (l : List Int) : List ℚ :=
  l.map (Int.cast : Int → ℚ)

/-- Line 513: `np.concatenate(all_audio_chunks).astype(np.float32)`. -/
def assembleBuffer (p : List (List Int)) : List ℚ :=
  intsToFloats p.flatten

/-- The assembled buffer as a function of the ordered chunk list: per-chunk
processing, then concatenation, then the cast back to float32. -/
def generateBuffer (cs : List Chunk) : Option (List ℚ) :=
  (cs.mapM processChunk).map assembleBuffer

/-- Modelled from the spec (section 4.3 and section 8, first testable
property): per-chunk treatment as the claim states it — normalize the numeric
precision to one canonical floating-point representation and flatten to one
dimension; no other transformation. -/
def specNormalizeFlatten (c : Chunk) : List ℚ := squeezeChunk c

/-- Modelled from the spec: the buffer the claim asserts — the ordered
concatenation of the normalized, flattened chunks. -/
def specAssembled (cs : List Chunk) : List ℚ :=
  (cs.map specNormalizeFlatten).flatten

/-! ## Request finalization (lines 505-536) -/

/-- An HTTP error as the handlers raise it: `HTTPException(status, detail)`. -/
structure HTTPErr where
  status : Nat
  detail : String
deriving DecidableEq

/-- The successful payload computed at lines 512-536: the assembled buffer,
`duration = len(audio_data) / sample_rate`, and the sample rate. -/
structure GenSuccess where
  audio : List ℚ
  duration : ℚ
  sample_rate : Nat
deriving DecidableEq

/-- How the generation routine ended inside the worker thread. -/
inductive WorkerOutcome where
  | completed
  | raised (reason : String)
deriving DecidableEq

/-- Lines 487-536: collect and process the chunks, join the worker, and build
the response.  `generation_thread.join(timeout=10.0)` (line 506) discards any
exception raised inside the worker thread, so `outcome` is never inspected:
the result depends only on the chunk list observed on the channel.  This
function describes the handler once the chunk stream has terminated. -/
def collectAndRespond (chunks : List Chunk) (outcome : WorkerOutcome)
    (sampleRate : Nat) : Except HTTPErr GenSuccess :=
  match chunks.mapM processChunk with
  | none =>
    -- an empty chunk makes np.max raise inside the loop; the handler's
    -- catch-all (lines 540-543) turns it into a 500
    .error ⟨500, "Generation failed: zero-size array to reduction operation maximum which has no identity"⟩
  | some p16 =>
    if p16.isEmpty then
      -- lines 511-515
      .error ⟨500, "No audio chunks were generated"⟩
    else
      let audio := assembleBuffer p16
      .ok ⟨audio, (audio.length : ℚ) / (sampleRate : ℚ), sampleRate⟩

/-! ## Endpoint gates (readiness and script checks before generation) -/

/-- Lines 371-377 of `generate_podcast`: the 503 readiness check comes first,
then the empty-script check. -/
def generatePodcastGate (isInitialized : Bool) (script : List Char) :
    Option HTTPErr :=
  if !isInitialized then some ⟨503, "Server is still initializing"⟩
  else if pyStrip script = [] then some ⟨400, "Script cannot be empty"⟩
  else none

/-- Lines 551-576 of `generate_podcast_wav`: only the empty-script check; the
handler never consults `vibe_server.is_initialized`.  `none` means the handler
proceeds into speaker resolution and generation work. -/
def generatePodcastWavGate (isInitialized : Bool) (script : List Char) :
    Option HTTPErr :=
  if pyStrip script = [] then some ⟨400, "Script cannot be empty"⟩
  else none

/-- Lines 733-734 of `generate_podcast_stream`: the 503 readiness check. -/
def generatePodcastStreamGate (isInitialized : Bool) : Option HTTPErr :=
  if !isInitialized then some ⟨503, "Server is still initializing"⟩
  else none

/-! ## Request validation (lines 203-216) -/

/-- The parsed request body. -/
structure GenerationRequest where
  script : List Char
  num_speakers : Nat
  speakers : List (List Char)
  cfg_scale : ℚ
deriving DecidableEq

/-- The pydantic rejection categories relevant to request parsing. -/
inductive ValidationError where
  | numSpeakersOutOfRange (got : Nat)
  | speakerCountMismatch (got expected : Nat)
  | cfgScaleOutOfRange
deriving DecidableEq

/-- Lines 210-216: the `speakers` field validator — a nonempty list whose
length differs from `num_speakers` raises `ValueError`. -/
def validate_speakers (num_speakers : Nat) (v : List (List Char)) :
    Except ValidationError (List (List Char)) :=
  if 0 < v.length ∧ v.length ≠ num_speakers then
    .error (.speakerCountMismatch v.length num_speakers)
  else .ok v

/-- Pydantic validation of the request body (lines 203-216): field bounds
`1 ≤ num_speakers ≤ 4`, the speakers validator, and `1.0 ≤ cfg_scale ≤ 2.0`.
A `.error` result is returned to the client before any handler runs. -/
def mkGenerationRequest (script : List Char) (num_speakers : Nat)
    (speakers : List (List Char)) (cfg_scale : ℚ) :
    Except ValidationError GenerationRequest :=
  if ¬ (1 ≤ num_speakers ∧ num_speakers ≤ 4) then
    .error (.numSpeakersOutOfRange num_speakers)
  else
    match validate_speakers num_speakers speakers with
    | .error e => .error e
    | .ok v =>
      if ¬ (1 ≤ cfg_scale ∧ cfg_scale ≤ 2) then .error .cfgScaleOutOfRange
      else .ok ⟨script, num_speakers, v, cfg_scale⟩

/-! ## The producer/consumer handoff as a step machine (lines 454-506)

Modelled from the spec for the parts that live in `AudioStreamer` rather than
in server.py: section 4.1 — the channel is a FIFO handoff whose `pull` blocks
until a chunk is available, the channel closes, or a caller-specified wait
timeout elapses; section 3 — chunks arrive in generation order and the channel
must not reorder them. -/

/-- A scheduler choice: the producer pushes its next chunk, the producer
closes the channel, or the consumer pulls one queued chunk. -/
inductive DrainStep where
  | produce
  | close
  | consume
deriving DecidableEq

/-- State of one request's handoff: chunks the worker has yet to push, the
FIFO queue, whether the worker has signalled completion, and the chunks the
collection loop has pulled, in arrival order. -/
structure DrainState where
  toProduce : List Chunk
  queue : List Chunk
  closed : Bool
  collected : List Chunk
deriving DecidableEq

/-- One scheduler step; `none` when the chosen step is not enabled. -/
def drainStepFn : DrainStep → DrainState → Option DrainState
  | .produce, s =>
    match s.toProduce with
    | [] => none
    | c :: rest =>
      if s.closed then none
      else some { s with toProduce := rest, queue := s.queue ++ [c] }
  | .close, s =>
    if s.closed then none
    else if s.toProduce.isEmpty then some { s with closed := true }
    else none
  | .consume, s =>
    match s.queue with
    | [] => none
    | c :: rest => some { s with queue := rest, collected := s.collected ++ [c] }

/-- Run a schedule (one interleaving of producer and consumer). -/
def runSched : List DrainStep → DrainState → Option DrainState
  | [], s => some s
  | step :: rest, s =>
    match drainStepFn step s with
    | none => none
    | some s2 => runSched rest s2

/-- Fresh state for a worker that will produce `cs` in order. -/
def initDrain (cs : List Chunk) : DrainState := ⟨cs, [], false, []⟩

/-- The collection loop has terminated normally: everything was produced,
the queue was drained, and the channel closed. -/
def drainComplete (s : DrainState) : Prop :=
  s.toProduce = [] ∧ s.queue = [] ∧ s.closed = true

/-! ## The collection loop against a stalled channel (lines 454-506)

Modelled from the spec, section 4.1, for the `pull` semantics of
`AudioStreamer.get_stream`: with no wait timeout configured, a pull against a
channel that stays `Open` never returns. -/

/-- What one poll of the channel observes. -/
inductive ChannelObs where
  | chunkReady (c : Chunk)
  | channelClosed
  | stillOpen
deriving DecidableEq

/-- Terminal result of the collection loop. -/
inductive CollectorResult where
  | finished (cs : List Chunk)
  | timedOut
deriving DecidableEq

/-- State of the collection loop: time waited so far, chunks pulled so far,
and the terminal result once one exists. -/
structure CollectorState where
  waited : Nat
  pulled : List Chunk
  result : Option CollectorResult
deriving DecidableEq

/-- One tick of the collection loop.  A configured wait timeout `some t`
turns a stalled poll into `timedOut` once `t` ticks have elapsed; with
timeout `none` the poll blocks and the loop just keeps waiting. -/
def collectorStep (timeout : Option Nat) (obs : ChannelObs)
    (s : CollectorState) : CollectorState :=
  match s.result with
  | some _ => s
  | none =>
    match obs with
    | .chunkReady c => { s with pulled := s.pulled ++ [c], waited := 0 }
    | .channelClosed => { s with result := some (.finished s.pulled) }
    | .stillOpen =>
      match timeout with
      | none => { s with waited := s.waited + 1 }
      | some t =>
        if t ≤ s.waited then { s with result := some .timedOut }
        else { s with waited := s.waited + 1 }

/-- The collection loop run for `n` ticks against channel observations
`obs`. -/
def collectorRun (timeout : Option Nat) (obs : Nat → ChannelObs) :
    Nat → CollectorState
  | 0 => ⟨0, [], none⟩
  | n + 1 => collectorStep timeout (obs n) (collectorRun timeout obs n)

/-- Line 454-458: `AudioStreamer(batch_size=1, stop_signal=None,
timeout=None)` — the server configures no wait timeout on the channel. -/
def serverStreamerTimeout : Option Nat := none

/-- A worker that never pushes a chunk and never closes its channel. -/
def stalledChannel : Nat → ChannelObs := fun _ => .stillOpen

/-! ## Helper lemmas about the 16-bit conversion -/

theorem foldl_max_abs_init_le (l : List ℚ) (a : ℚ) :
    a ≤ l.foldl (fun m x => max m |x|) a := by
  induction l generalizing a with
  | nil => exact le_refl a
  | cons y l ih =>
    exact le_trans (le_max_left a |y|) (ih (max a |y|))

theorem peakAbs_nonneg (data : List ℚ) : 0 ≤ peakAbs data :=
  foldl_max_abs_init_le data 0

theorem abs_le_foldl_max (l : List ℚ) (a : ℚ) (x : ℚ) (hx : x ∈ l) :
    |x| ≤ l.foldl (fun m x => max m |x|) a := by
  induction l generalizing a with
  | nil => cases hx
  | cons y l ih =>
    rcases List.mem_cons.mp hx with h | h
    · subst h
      exact le_trans (le_max_right a |x|) (foldl_max_abs_init_le l (max a |x|))
    · exact ih (max a |y|) h

theorem abs_le_peakAbs (data : List ℚ) (x : ℚ) (hx : x ∈ data) :
    |x| ≤ peakAbs data :=
  abs_le_foldl_max data 0 x hx

theorem truncQ_bound {y : ℚ} {m : Nat} (h : |y| ≤ (m : ℚ)) :
    -(m : Int) ≤ truncQ y ∧ truncQ y ≤ (m : Int) := by
  unfold truncQ
  by_cases hy : 0 ≤ y
  · rw [if_pos hy]
    have h0 : (0 : Int) ≤ ⌊y⌋ := Int.le_floor.mpr (by exact_mod_cast hy)
    constructor
    · omega
    · have : (⌊y⌋ : Int) ≤ ⌊(m : ℚ)⌋ :=
        Int.floor_le_floor (le_trans (le_abs_self y) h)
      simpa using this
  · rw [if_neg hy]
    push_neg at hy
    have h1 : 0 ≤ -y := by linarith
    have h2 : -y ≤ (m : ℚ) := by
      have := le_trans (neg_abs_le y) (le_of_lt hy)
      calc -y = |y| := by rw [abs_of_neg hy]
        _ ≤ (m : ℚ) := h
    constructor
    · have : (⌊-y⌋ : Int) ≤ ⌊(m : ℚ)⌋ := Int.floor_le_floor h2
      have hm : (⌊(m : ℚ)⌋ : Int) = m := by simp
      omega
    · have : (0 : Int) ≤ ⌊-y⌋ := Int.le_floor.mpr (by exact_mod_cast h1)
      omega

theorem toInt16_eq_self {n : Int} (h1 : -32768 ≤ n) (h2 : n < 32768) :
    toInt16 n = n := by
  unfold toInt16
  rw [Int.emod_eq_of_lt (by omega) (by omega)]
  omega

theorem toInt16_truncQ_of_abs_le_one {x : ℚ} (h : |x| ≤ 1) :
    toInt16 (truncQ (x * 32767)) = truncQ (x * 32767) := by
  have habs : |x * 32767| ≤ ((32767 : Nat) : ℚ) := by
    rw [abs_mul]
    have : |(32767 : ℚ)| = 32767 := by norm_num
    rw [this]
    calc |x| * 32767 ≤ 1 * 32767 := by
          exact mul_le_mul_of_nonneg_right h (by norm_num)
      _ = ((32767 : Nat) : ℚ) := by norm_num
  obtain ⟨hl, hr⟩ := truncQ_bound habs
  exact toInt16_eq_self (by omega) (by omega)

/-- C2: for every nonempty input buffer, if the peak absolute magnitude
exceeds 1.0 the whole buffer is divided by that peak before multiplying by
32767 and truncating to 16-bit integers (no wrap-around occurs); if the peak
is at most 1.0, no rescaling occurs and each output sample is the literal
sample value times 32767, truncated. -/
theorem claim_C2 (data : List ℚ) (hne : data ≠ []) :
    (1 < peakAbs data →
      convert_to_16_bit_wav data =
        some (data.map fun x => truncQ (x / peakAbs data * 32767))) ∧
    (peakAbs data ≤ 1 →
      convert_to_16_bit_wav data = some (data.map fun x => truncQ (x * 32767))) := by
  have hisEmpty : data.isEmpty = false := by
    simpa [List.isEmpty_iff] using hne
  constructor
  · intro hp
    have hp0 : 0 < peakAbs data := lt_trans one_pos hp
    unfold convert_to_16_bit_wav
    rw [hisEmpty]
    simp only [Bool.false_eq_true, if_false, if_pos hp, List.map_map, Option.some.injEq]
    apply List.map_congr_left
    intro x hx
    have habs : |x / peakAbs data| ≤ 1 := by
      rw [abs_div, abs_of_pos hp0]
      exact (div_le_one hp0).mpr (abs_le_peakAbs data x hx)
    exact toInt16_truncQ_of_abs_le_one habs
  · intro hp
    unfold convert_to_16_bit_wav
    rw [hisEmpty]
    simp only [Bool.false_eq_true, if_false, if_neg (not_lt.mpr hp), Option.some.injEq]
    apply List.map_congr_left
    intro x hx
    have habs : |x| ≤ 1 := le_trans (abs_le_peakAbs data x hx) hp
    exact toInt16_truncQ_of_abs_le_one habs

/-- Witness for C2 at the buffer `[1/2, -2]`, whose peak 2 exceeds 1: the
output is the buffer divided by 2, times 32767, truncated. -/
theorem claim_C2_witness :
    (1 : ℚ) < peakAbs [(1:ℚ)/2, -2] ∧
    convert_to_16_bit_wav [(1:ℚ)/2, -2] = some [8191, -32767] := by
  have hpeak : peakAbs [(1:ℚ)/2, -2] = 2 := by
    simp [peakAbs, abs, max_def]
    norm_num
  have hlt : (1 : ℚ) < peakAbs [(1:ℚ)/2, -2] := by rw [hpeak]; norm_num
  refine ⟨hlt, ?_⟩
  have h := (claim_C2 [(1:ℚ)/2, -2] (by simp)).1 hlt
  rw [h, hpeak]
  norm_num [truncQ]

theorem peakAbs_replicate_zero (m : Nat) : peakAbs (List.replicate m (0:ℚ)) = 0 := by
  have key : ∀ (k : Nat) (a : ℚ), 0 ≤ a →
      (List.replicate k (0:ℚ)).foldl (fun m x => max m |x|) a = a := by
    intro k
    induction k with
    | zero => intro a _; rfl
    | succ k ih =>
      intro a ha
      simp only [List.replicate_succ, List.foldl_cons, abs_zero]
      rw [max_eq_left ha]
      exact ih a ha
  exact key _ 0 le_rfl

theorem convert_single_zero : convert_to_16_bit_wav [(0:ℚ)] = some [0] := by
  have hp : peakAbs [(0:ℚ)] = 0 := peakAbs_replicate_zero 1
  simp only [convert_to_16_bit_wav, List.isEmpty, hp]
  norm_num [truncQ, toInt16]

theorem convert_single_one : convert_to_16_bit_wav [(1:ℚ)] = some [32767] := by
  have hp : peakAbs [(1:ℚ)] = 1 := by
    simp [peakAbs, abs, max_def]
    norm_num
  simp only [convert_to_16_bit_wav, List.isEmpty, hp]
  norm_num [truncQ, toInt16]

theorem convert_single_half : convert_to_16_bit_wav [(1:ℚ)/2] = some [16383] := by
  have hp : peakAbs [(1:ℚ)/2] = 1/2 := by
    simp [peakAbs, abs, max_def]
    norm_num
  simp only [convert_to_16_bit_wav, List.isEmpty, hp]
  norm_num [truncQ, toInt16]

/-- Claim C10 as stated is false at the empty buffer: `np.max` of an empty
array raises, so the conversion is not total — in particular the empty silent
buffer does not map to an (empty) all-zero 16-bit buffer. -/
theorem claim_C10_counterexample :
    convert_to_16_bit_wav ([] : List ℚ) = none ∧
    convert_to_16_bit_wav ([] : List ℚ) ≠ some [] := by
  constructor
  · rfl
  · intro h
    cases h

/-- C10 (amended): for every NONEMPTY input buffer the 16-bit conversion
succeeds and never divides by zero — rescaling is only performed when the
peak absolute value strictly exceeds 1.0, which in particular makes the
divisor nonzero — and a nonempty silent buffer is not rescaled and maps to
an all-zero 16-bit buffer. -/
theorem claim_C10 (data : List ℚ) (n : Nat) (hne : data ≠ []) :
    (convert_to_16_bit_wav data).isSome ∧
    (1 < peakAbs data → peakAbs data ≠ 0) ∧
    ¬ 1 < peakAbs (List.replicate (n + 1) (0:ℚ)) ∧
    convert_to_16_bit_wav (List.replicate (n + 1) (0:ℚ)) =
      some (List.replicate (n + 1) 0) := by
  have hisEmpty : data.isEmpty = false := by
    simpa [List.isEmpty_iff] using hne
  refine ⟨?_, ?_, ?_, ?_⟩
  · unfold convert_to_16_bit_wav
    rw [hisEmpty]
    simp
  · intro hp
    have : (0:ℚ) < peakAbs data := lt_trans one_pos hp
    exact ne_of_gt this
  · rw [peakAbs_replicate_zero]
    norm_num
  · unfold convert_to_16_bit_wav
    rw [peakAbs_replicate_zero]
    have : (List.replicate (n + 1) (0:ℚ)).isEmpty = false := by
      simp [List.isEmpty_iff]
    rw [this]
    simp only [Bool.false_eq_true, if_false, if_neg (by norm_num : ¬ (1:ℚ) < 0)]
    rw [List.map_replicate]
    norm_num [truncQ, toInt16]

/-- Witness for C10 at the nonempty buffer `[1/2]` and the silent buffer
`[0]`. -/
theorem claim_C10_witness :
    (convert_to_16_bit_wav [(1:ℚ)/2]).isSome ∧
    convert_to_16_bit_wav (List.replicate 1 (0:ℚ)) = some (List.replicate 1 0) := by
  have h := claim_C10 [(1:ℚ)/2] 0 (by simp)
  exact ⟨h.1, h.2.2.2⟩

/-! ## Invariants of the producer/consumer machine -/

theorem drainStepFn_inv {step : DrainStep} {s s' : DrainState}
    (h : drainStepFn step s = some s') :
    s'.collected ++ s'.queue ++ s'.toProduce = s.collected ++ s.queue ++ s.toProduce := by
  cases step with
  | produce =>
    cases htp : s.toProduce with
    | nil => simp [drainStepFn, htp] at h
    | cons c rest =>
      by_cases hc : s.closed
      · simp [drainStepFn, htp, hc] at h
      · simp [drainStepFn, htp, hc] at h
        subst h
        simp [htp, List.append_assoc]
  | close =>
    by_cases hc : s.closed
    · simp [drainStepFn, hc] at h
    · by_cases htp : s.toProduce.isEmpty
      · simp [drainStepFn, hc, htp] at h
        subst h
        rfl
      · simp [drainStepFn, hc, htp] at h
  | consume =>
    cases hq : s.queue with
    | nil => simp [drainStepFn, hq] at h
    | cons c rest =>
      simp [drainStepFn, hq] at h
      subst h
      simp [hq, List.append_assoc]

theorem runSched_inv (sched : List DrainStep) :
    ∀ s s' : DrainState, runSched sched s = some s' →
      s'.collected ++ s'.queue ++ s'.toProduce = s.collected ++ s.queue ++ s.toProduce := by
  induction sched with
  | nil =>
    intro s s' h
    simp only [runSched, Option.some.injEq] at h
    subst h
    rfl
  | cons step rest ih =>
    intro s s' h
    simp only [runSched] at h
    cases hstep : drainStepFn step s with
    | none => rw [hstep] at h; cases h
    | some s2 =>
      rw [hstep] at h
      exact (ih s2 s' h).trans (drainStepFn_inv hstep)

/-- Claim C1 as stated is false on the code: per-chunk processing is not just
normalization and flattening — each chunk is also quantized to 16-bit
integers before assembly (line 502).  At the single chunk `[1/2]` the
assembled buffer is `[16383]`, not `[1/2]`. -/
theorem claim_C1_counterexample :
    generateBuffer [Chunk.flat [(1:ℚ)/2]] = some [16383] ∧
    specAssembled [Chunk.flat [(1:ℚ)/2]] = [(1:ℚ)/2] ∧
    generateBuffer [Chunk.flat [(1:ℚ)/2]] ≠
      some (specAssembled [Chunk.flat [(1:ℚ)/2]]) := by
  have hproc : processChunk (Chunk.flat [(1:ℚ)/2]) = some [16383] := by
    simpa [processChunk, squeezeChunk] using convert_single_half
  have hm : List.mapM processChunk [Chunk.flat [(1:ℚ)/2]] = some [[16383]] := by
    rw [List.mapM_cons, hproc, List.mapM_nil]
    rfl
  have hbuf : generateBuffer [Chunk.flat [(1:ℚ)/2]] = some [16383] := by
    rw [generateBuffer, hm]
    simp [assembleBuffer, intsToFloats]
  have hspec : specAssembled [Chunk.flat [(1:ℚ)/2]] = [(1:ℚ)/2] := by
    simp [specAssembled, specNormalizeFlatten, squeezeChunk]
  refine ⟨hbuf, hspec, ?_⟩
  rw [hbuf, hspec]
  intro h
  have h2 : (16383 : ℚ) = 1/2 := by
    have h1 := Option.some.inj h
    exact List.head_eq_of_cons_eq h1
  norm_num at h2

/-- C1 (amended): for every request whose worker produces chunks c1..cN in
order, and for EVERY interleaving of producer and consumer that runs to
completion, the consumer collects exactly c1..cN in that order, and the
assembled buffer equals the ordered concatenation of the chunks after each is
normalized, flattened, AND quantized to 16-bit integers, with the
concatenation cast back to floating point — independent of consumer poll
timing. -/
theorem claim_C1 (cs : List Chunk) (sched : List DrainStep) (final : DrainState)
    (hrun : runSched sched (initDrain cs) = some final)
    (hdone : drainComplete final) :
    final.collected = cs ∧
    ∀ p, cs.mapM processChunk = some p →
      assembleBuffer p = (p.map intsToFloats).flatten := by
  have hinv := runSched_inv sched _ _ hrun
  obtain ⟨h1, h2, h3⟩ := hdone
  constructor
  · rw [h1, h2] at hinv
    simpa [initDrain] using hinv
  · intro p hp
    unfold assembleBuffer intsToFloats
    rw [← List.map_flatten]

/-- Witness for C1: two chunks pushed and pulled under an interleaving that
overlaps production and consumption; the collected order is the production
order and the buffer is the concatenation of the processed chunks. -/
theorem claim_C1_witness :
    runSched [DrainStep.produce, DrainStep.consume, DrainStep.produce,
        DrainStep.close, DrainStep.consume]
      (initDrain [Chunk.flat [0], Chunk.batched [1]]) =
      some ⟨[], [], true, [Chunk.flat [0], Chunk.batched [1]]⟩ ∧
    (⟨[], [], true, [Chunk.flat [0], Chunk.batched [1]]⟩ : DrainState).collected =
      [Chunk.flat [0], Chunk.batched [1]] ∧
    List.mapM processChunk [Chunk.flat [0], Chunk.batched [1]] = some [[0], [32767]] ∧
    assembleBuffer [[0], [32767]] = [(0:ℚ), 32767] := by
  have hrun : runSched [DrainStep.produce, DrainStep.consume, DrainStep.produce,
      DrainStep.close, DrainStep.consume]
      (initDrain [Chunk.flat [0], Chunk.batched [1]]) =
      some ⟨[], [], true, [Chunk.flat [0], Chunk.batched [1]]⟩ := rfl
  have hdone : drainComplete
      (⟨[], [], true, [Chunk.flat [0], Chunk.batched [1]]⟩ : DrainState) :=
    ⟨rfl, rfl, rfl⟩
  have h := claim_C1 [Chunk.flat [0], Chunk.batched [1]] _ _ hrun hdone
  have h0 : processChunk (Chunk.flat [0]) = some [0] := by
    simpa [processChunk, squeezeChunk] using convert_single_zero
  have h1 : processChunk (Chunk.batched [1]) = some [32767] := by
    simpa [processChunk, squeezeChunk] using convert_single_one
  have hm : List.mapM processChunk [Chunk.flat [0], Chunk.batched [1]] =
      some [[0], [32767]] := by
    rw [List.mapM_cons, h0, List.mapM_cons, h1, List.mapM_nil]
    rfl
  refine ⟨hrun, h.1, hm, ?_⟩
  simp [assembleBuffer, intsToFloats]

/-! ## Helper lemmas about chunk processing -/

theorem processChunk_some_ne_nil {c : Chunk} {l : List Int}
    (h : processChunk c = some l) : l ≠ [] := by
  have hdata : squeezeChunk c ≠ [] := by
    intro hd
    unfold processChunk convert_to_16_bit_wav at h
    rw [hd] at h
    simp at h
  intro hnil
  subst hnil
  unfold processChunk convert_to_16_bit_wav at h
  have hfe : (squeezeChunk c).isEmpty = false := by
    simpa [List.isEmpty_iff] using hdata
  rw [hfe] at h
  simp only [Bool.false_eq_true, if_false, Option.some.injEq] at h
  rcases em (1 < peakAbs (squeezeChunk c)) with hp | hp
  · rw [if_pos hp] at h
    simp [List.map_eq_nil_iff] at h
    exact hdata h
  · rw [if_neg hp] at h
    simp [List.map_eq_nil_iff] at h
    exact hdata h

theorem mapM_processChunk_mem :
    ∀ (cs : List Chunk) (p : List (List Int)),
      List.mapM processChunk cs = some p → ∀ l ∈ p, ∃ c, processChunk c = some l := by
  intro cs
  induction cs with
  | nil =>
    intro p h l hl
    rw [List.mapM_nil] at h
    simp only [Option.pure_def, Option.some.injEq] at h
    subst h
    cases hl
  | cons c cs ih =>
    intro p h l hl
    rw [List.mapM_cons] at h
    cases hfc : processChunk c with
    | none => rw [hfc] at h; simp at h
    | some b =>
      rw [hfc] at h
      cases hm : List.mapM processChunk cs with
      | none => rw [hm] at h; simp at h
      | some bs =>
        rw [hm] at h
        simp only [Option.bind_eq_bind, Option.some_bind, Option.pure_def,
          Option.some.injEq] at h
        subst h
        rcases List.mem_cons.mp hl with rfl | hbs
        · exact ⟨c, hfc⟩
        · exact ih bs hm l hbs

theorem flatten_ne_nil {p : List (List Int)} (hp : p ≠ [])
    (hall : ∀ l ∈ p, l ≠ []) : p.flatten ≠ [] := by
  cases p with
  | nil => exact absurd rfl hp
  | cons l rest =>
    simp only [List.flatten_cons]
    intro h
    rcases List.append_eq_nil.mp h with ⟨h1, _⟩
    exact hall l (List.mem_cons_self l rest) h1

/-- C3: a request in which zero chunks are produced before channel closure
fails with the EmptyGeneration-category 500 error (never a zero-length
success), and any successful response comes from a nonempty chunk list and
carries a nonempty audio buffer. -/
theorem claim_C3 (outcome : WorkerOutcome) (rate : Nat) :
    collectAndRespond [] outcome rate =
      .error ⟨500, "No audio chunks were generated"⟩ ∧
    ∀ (chunks : List Chunk) (s : GenSuccess),
      collectAndRespond chunks outcome rate = .ok s →
        chunks ≠ [] ∧ s.audio ≠ [] := by
  constructor
  · rfl
  · intro chunks s h
    unfold collectAndRespond at h
    cases hm : List.mapM processChunk chunks with
    | none => rw [hm] at h; cases h
    | some p16 =>
      rw [hm] at h
      dsimp only at h
      by_cases hp : p16.isEmpty
      · rw [if_pos hp] at h; cases h
      · rw [if_neg hp] at h
        have hs := Except.ok.inj h
        have hpne : p16 ≠ [] := by
          intro hnil; rw [hnil] at hp; exact hp rfl
        constructor
        · intro hcnil
          rw [hcnil, List.mapM_nil] at hm
          simp only [Option.pure_def, Option.some.injEq] at hm
          exact hpne hm.symm
        · have haudio : s.audio = assembleBuffer p16 := by
            rw [← hs]
          rw [haudio]
          unfold assembleBuffer intsToFloats
          rw [Ne, List.map_eq_nil_iff]
          exact flatten_ne_nil hpne fun l hl =>
            match mapM_processChunk_mem chunks p16 hm l hl with
            | ⟨c, hc⟩ => processChunk_some_ne_nil hc

/-- Witness for C3: a one-chunk request succeeds with a nonempty buffer,
instantiating the success branch of the theorem. -/
theorem claim_C3_witness :
    collectAndRespond [] WorkerOutcome.completed 24000 =
      .error ⟨500, "No audio chunks were generated"⟩ ∧
    ([Chunk.flat [(1:ℚ)]] ≠ ([] : List Chunk)) ∧
    (⟨[(32767:ℚ)], 1 / 24000, 24000⟩ : GenSuccess).audio ≠ [] := by
  have hproc : processChunk (Chunk.flat [(1:ℚ)]) = some [32767] := by
    simpa [processChunk, squeezeChunk] using convert_single_one
  have hm : List.mapM processChunk [Chunk.flat [(1:ℚ)]] = some [[32767]] := by
    rw [List.mapM_cons, hproc, List.mapM_nil]
    rfl
  have hok : collectAndRespond [Chunk.flat [(1:ℚ)]] WorkerOutcome.completed 24000 =
      .ok ⟨[(32767:ℚ)], 1 / 24000, 24000⟩ := by
    have hab : assembleBuffer [[32767]] = [(32767:ℚ)] := by
      simp [assembleBuffer, intsToFloats]
    simp only [collectAndRespond, hm, hab]
    norm_num [hab]
  have h := (claim_C3 WorkerOutcome.completed 24000).2 [Chunk.flat [(1:ℚ)]] _ hok
  exact ⟨(claim_C3 WorkerOutcome.completed 24000).1, h.1, h.2⟩

/-- Claim C5 as stated is false on the code: the worker thread body
(lines 461-475) has no exception handler and `join` discards thread
exceptions, so a generation-routine exception with reason "boom" that
produced zero chunks surfaces as the EmptyGeneration-category error, not as
a GenerationFailed error carrying the reason. -/
theorem claim_C5_counterexample :
    collectAndRespond [] (WorkerOutcome.raised "boom") 24000 =
      .error ⟨500, "No audio chunks were generated"⟩ ∧
    (⟨500, "No audio chunks were generated"⟩ : HTTPErr) ≠
      ⟨500, "Generation failed: boom"⟩ := by
  constructor
  · rfl
  · intro h
    have := congrArg HTTPErr.detail h
    simp at this

/-- C5 (amended): an exception raised by the generation routine inside the
worker thread is never propagated to the request handler — the handler
result is a function of the observed chunk list alone, so the exception
reason is not exposed to the caller; when the failing worker produced zero
chunks the request fails with the EmptyGeneration-category 500 error (and
thus no partial buffer is returned as a success). -/
theorem claim_C5 (reason : String) (rate : Nat) :
    collectAndRespond [] (WorkerOutcome.raised reason) rate =
      .error ⟨500, "No audio chunks were generated"⟩ ∧
    ∀ (chunks : List Chunk) (o1 o2 : WorkerOutcome),
      collectAndRespond chunks o1 rate = collectAndRespond chunks o2 rate := by
  exact ⟨rfl, fun chunks o1 o2 => rfl⟩

/-- C9: every successful response reports
`duration = sample_count / sample_rate` for the assembled buffer, the
duration is non-negative, and the reported sample rate is the configured
one. -/
theorem claim_C9 (chunks : List Chunk) (outcome : WorkerOutcome) (rate : Nat)
    (s : GenSuccess) (h : collectAndRespond chunks outcome rate = .ok s) :
    s.duration = (s.audio.length : ℚ) / (rate : ℚ) ∧
    0 ≤ s.duration ∧ s.sample_rate = rate := by
  unfold collectAndRespond at h
  cases hm : List.mapM processChunk chunks with
  | none => rw [hm] at h; cases h
  | some p16 =>
    rw [hm] at h
    dsimp only at h
    by_cases hp : p16.isEmpty
    · rw [if_pos hp] at h; cases h
    · rw [if_neg hp] at h
      have hs := Except.ok.inj h
      rw [← hs]
      refine ⟨rfl, ?_, rfl⟩
      exact div_nonneg (Nat.cast_nonneg _) (Nat.cast_nonneg _)

/-- Witness for C9 at the one-chunk request `[flat [1]]` with sample rate
24000: duration `1/24000`, non-negative, sample rate 24000. -/
theorem claim_C9_witness :
    (⟨[(32767:ℚ)], 1 / 24000, 24000⟩ : GenSuccess).duration =
      (((⟨[(32767:ℚ)], 1 / 24000, 24000⟩ : GenSuccess).audio.length : ℚ)) /
        ((24000 : Nat) : ℚ) ∧
    0 ≤ (⟨[(32767:ℚ)], 1 / 24000, 24000⟩ : GenSuccess).duration ∧
    (⟨[(32767:ℚ)], 1 / 24000, 24000⟩ : GenSuccess).sample_rate = 24000 := by
  have hproc : processChunk (Chunk.flat [(1:ℚ)]) = some [32767] := by
    simpa [processChunk, squeezeChunk] using convert_single_one
  have hm : List.mapM processChunk [Chunk.flat [(1:ℚ)]] = some [[32767]] := by
    rw [List.mapM_cons, hproc, List.mapM_nil]
    rfl
  have hok : collectAndRespond [Chunk.flat [(1:ℚ)]] WorkerOutcome.completed 24000 =
      .ok ⟨[(32767:ℚ)], 1 / 24000, 24000⟩ := by
    have hab : assembleBuffer [[32767]] = [(32767:ℚ)] := by
      simp [assembleBuffer, intsToFloats]
    simp only [collectAndRespond, hm, hab]
    norm_num [hab]
  exact claim_C9 [Chunk.flat [(1:ℚ)]] WorkerOutcome.completed 24000 _ hok

/-- Claim C4 as stated is false on the code: `generate_podcast_wav` never
checks `vibe_server.is_initialized`, so with the model not loaded and the
nonempty script "Hello" its pre-generation gate raises nothing (the handler
proceeds into generation work) instead of failing with 503. -/
theorem claim_C4_counterexample :
    generatePodcastWavGate false "Hello".toList = none ∧
    generatePodcastWavGate false "Hello".toList ≠
      some ⟨503, "Server is still initializing"⟩ := by
  constructor
  · decide
  · decide

/-- C4 (amended): while the model is not loaded, `POST /generate` and
`POST /generate/stream` fail with the distinguishable 503 not-ready error
before any generation work, but `POST /generate/wav` performs no readiness
check at all — its gate behaves identically whether or not the model is
loaded, checking only for an empty script. -/
theorem claim_C4 (script : List Char) :
    generatePodcastGate false script = some ⟨503, "Server is still initializing"⟩ ∧
    generatePodcastStreamGate false = some ⟨503, "Server is still initializing"⟩ ∧
    generatePodcastWavGate false script = generatePodcastWavGate true script := by
  refine ⟨rfl, rfl, rfl⟩

/-! ## Lemmas about the stalled-channel collector -/

theorem collectorRun_none_stalled (n : Nat) :
    collectorRun none stalledChannel n = ⟨n, [], none⟩ := by
  induction n with
  | zero => rfl
  | succ n ih =>
    unfold collectorRun
    rw [ih]
    rfl

theorem collectorRun_some_stalled (t : Nat) :
    ∀ k, k ≤ t → collectorRun (some t) stalledChannel k = ⟨k, [], none⟩ := by
  intro k
  induction k with
  | zero => intro _; rfl
  | succ k ih =>
    intro hk
    unfold collectorRun
    rw [ih (by omega)]
    unfold collectorStep stalledChannel
    simp only []
    rw [if_neg (by omega : ¬ t ≤ k)]

/-- Claim C6 as stated is false on the code: the server creates its
`AudioStreamer` with `timeout=None`, so against a worker that never closes
its channel the collection loop never produces a timeout-category failure at
any point in time — it waits forever. -/
theorem claim_C6_counterexample :
    serverStreamerTimeout = none ∧
    ¬ ∃ n, (collectorRun serverStreamerTimeout stalledChannel n).result =
      some CollectorResult.timedOut := by
  refine ⟨rfl, ?_⟩
  rintro ⟨n, hn⟩
  rw [serverStreamerTimeout, collectorRun_none_stalled] at hn
  cases hn

/-- C6 (amended): the server configures no wait timeout on the channel
(`AudioStreamer(..., timeout=None)`, line 457), so a worker that never closes
its channel leaves the request waiting with no result after any number of
ticks; a timeout-category failure would be produced (one tick past the
deadline) only if some finite wait timeout were configured, which the server
never does.  The only timeout in the handler is the 10-second thread join,
reached only after the stream has ended. -/
theorem claim_C6 (n : Nat) :
    serverStreamerTimeout = none ∧
    (collectorRun serverStreamerTimeout stalledChannel n).result = none ∧
    ∀ t, (collectorRun (some t) stalledChannel (t + 1)).result =
      some CollectorResult.timedOut := by
  refine ⟨rfl, ?_, ?_⟩
  · rw [serverStreamerTimeout, collectorRun_none_stalled]
  · intro t
    unfold collectorRun
    rw [collectorRun_some_stalled t t le_rfl]
    unfold collectorStep stalledChannel
    simp only []
    rw [if_pos le_rfl]

/-- C7: a request whose speakers list is nonempty with length different from
`num_speakers` is rejected during request validation — the parsed request is
never constructed, so no handler (and no generation work) ever runs; the
speakers field validator itself reports the mismatch. -/
theorem claim_C7 (script : List Char) (n : Nat) (speakers : List (List Char))
    (cfg : ℚ) (h1 : speakers ≠ []) (h2 : speakers.length ≠ n) :
    (∀ r, mkGenerationRequest script n speakers cfg ≠ .ok r) ∧
    validate_speakers n speakers =
      .error (.speakerCountMismatch speakers.length n) := by
  have hv : validate_speakers n speakers =
      .error (.speakerCountMismatch speakers.length n) := by
    unfold validate_speakers
    rw [if_pos]
    exact ⟨List.length_pos.mpr h1, h2⟩
  refine ⟨?_, hv⟩
  intro r
  unfold mkGenerationRequest
  by_cases hrange : 1 ≤ n ∧ n ≤ 4
  · rw [if_neg (not_not_intro hrange), hv]
    intro h
    cases h
  · rw [if_pos hrange]
    intro h
    cases h

/-- Witness for C7 at `num_speakers = 2`, `speakers = ["A","B","C"]`. -/
theorem claim_C7_witness :
    (∀ r, mkGenerationRequest "x".toList 2
      ["A".toList, "B".toList, "C".toList] (13/10) ≠ .ok r) ∧
    validate_speakers 2 ["A".toList, "B".toList, "C".toList] =
      .error (.speakerCountMismatch 3 2) := by
  have h := claim_C7 "x".toList 2 ["A".toList, "B".toList, "C".toList] (13/10)
    (by decide) (by decide)
  exact ⟨h.1, h.2⟩

/-! ## Characterization of the script formatter -/

theorem foldl_formatStep_eq (n : Nat) :
    ∀ (ls : List (List Char)) (acc : List (List Char)),
      ls.foldl (formatStep n) acc =
        acc ++ labelFrom n acc.length
          ((ls.map pyStrip).filter (fun l => !l.isEmpty)) := by
  intro ls
  induction ls with
  | nil =>
    intro acc
    simp [labelFrom]
  | cons line rest ih =>
    intro acc
    simp only [List.foldl_cons, List.map_cons, List.filter_cons]
    by_cases hb : pyStrip line = []
    · have hstep : formatStep n acc line = acc := by
        simp [formatStep, hb]
      have hfilt : (!(pyStrip line).isEmpty) = false := by
        simp [hb]
      rw [hstep, hfilt]
      simp only [Bool.false_eq_true, if_false]
      exact ih acc
    · have hstep : formatStep n acc line =
          acc ++ [labelAt n acc.length (pyStrip line)] := by
        unfold formatStep labelAt
        rw [if_neg hb]
        by_cases hs : hasSpeakerFormat (pyStrip line) <;> simp [hs]
      have hfilt : (!(pyStrip line).isEmpty) = true := by
        simp [List.isEmpty_iff, hb]
      rw [hstep, hfilt]
      simp only [if_true]
      rw [ih (acc ++ [labelAt n acc.length (pyStrip line)])]
      simp [labelFrom, List.length_append, List.append_assoc]

/-- C8: the formatting step drops blank lines, passes through any stripped
line that starts with "Speaker " and contains a colon, and prefixes every
other non-blank line with the auto-assigned label "Speaker k: ", where k
cycles through 1..num_speakers by the line's position among the formatted
lines; in particular the two-line script "Hello\nWorld" with two speakers
yields alternating Speaker 1 / Speaker 2 labels. -/
theorem claim_C8 (script : List Char) (n : Nat) (h : 1 ≤ n) :
    formatScriptLines script n = labelFrom n 0 (strippedNonBlank script) ∧
    formatScriptLines "Hello\nWorld".toList 2 =
      ["Speaker 1: Hello".toList, "Speaker 2: World".toList] := by
  constructor
  · unfold formatScriptLines strippedNonBlank
    simpa using foldl_formatStep_eq n (pySplitOn '\n' (pyStrip script)) []
  · decide

/-- Witness for C8 at the end-to-end example script. -/
theorem claim_C8_witness :
    formatScriptLines "Hello\nWorld".toList 2 =
      labelFrom 2 0 (strippedNonBlank "Hello\nWorld".toList) ∧
    formatScriptLines "Hello\nWorld".toList 2 =
      ["Speaker 1: Hello".toList, "Speaker 2: World".toList] :=
  claim_C8 "Hello\nWorld".toList 2 (by decide)

/-- Witness for the amended C4 at the concrete script "Hello". -/
theorem claim_C4_witness :
    generatePodcastGate false "Hello".toList =
      some ⟨503, "Server is still initializing"⟩ ∧
    generatePodcastStreamGate false = some ⟨503, "Server is still initializing"⟩ ∧
    generatePodcastWavGate false "Hello".toList =
      generatePodcastWavGate true "Hello".toList :=
  claim_C4 "Hello".toList

/-- Witness for the amended C5 at the concrete reason "boom" and one
concrete chunk list. -/
theorem claim_C5_witness :
    collectAndRespond [] (WorkerOutcome.raised "boom") 24000 =
      .error ⟨500, "No audio chunks were generated"⟩ ∧
    collectAndRespond [Chunk.flat [(1:ℚ)]] (WorkerOutcome.raised "boom") 24000 =
      collectAndRespond [Chunk.flat [(1:ℚ)]] WorkerOutcome.completed 24000 :=
  ⟨(claim_C5 "boom" 24000).1,
    (claim_C5 "boom" 24000).2 [Chunk.flat [(1:ℚ)]]
      (WorkerOutcome.raised "boom") WorkerOutcome.completed⟩

/-- Witness for the amended C6 after five ticks, and the hypothetical
configured-timeout comparison at `t = 3`. -/
theorem claim_C6_witness :
    serverStreamerTimeout = none ∧
    (collectorRun serverStreamerTimeout stalledChannel 5).result = none ∧
    (collectorRun (some 3) stalledChannel 4).result =
      some CollectorResult.timedOut :=
  ⟨(claim_C6 5).1, (claim_C6 5).2.1, (claim_C6 5).2.2 3⟩
